import Mathlib

/-!
Verification of the blockifier transaction-execution core against its
natural-language specification.

Part 1: the MVCC versioned cell store
(`src/crates/blockifier/src/concurrency/versioned_storage.rs`).

The Rust store is generic over a key type `K` (with `Eq + Hash`) and a value
type `V : Clone`; versions are `u64`. We model the outer `HashMap` and the
inner `BTreeMap` as association lists with at-most-one binding per key
(the invariant both containers guarantee), and model versions as naturals
(no arithmetic is ever performed on versions, only comparisons, so `u64`
wraparound cannot be observed).
-/

set_option autoImplicit false

universe u v

/-- Model of `StateResult<V>`: the error payload is irrelevant to the store,
so it is collapsed to `Unit`. -/
abbrev StateResult (V : Type v) := Except Unit V

/-- Outcome of `VersionedStorage::read`.  The Rust function either returns a
value, or panics: `self.writes[&cell_id]` (the `Index` impl of `HashMap`)
panics when the cell has no write-history entry at all, and the
`.expect(...)` on the base-value callback panics when that callback fails. -/
inductive ReadResult (V : Type v) where
  | value (v : V)
  | panicKeyNotFound
  | panicBaseValueError
deriving DecidableEq, Repr

/-- First binding for a key in an association list (`HashMap` lookup;
both containers keep keys unique). -/
def assocGet {K : Type u} {A : Type v} [DecidableEq K] : List (K × A) → K → Option A
  | [], _ => none
  | p :: rest, key => if p.1 = key then some p.2 else assocGet rest key

/-- Remove every binding of a key from an association list. -/
def eraseKey {K : Type u} {A : Type v} [DecidableEq K] : List (K × A) → K → List (K × A)
  | [], _ => []
  | p :: rest, key => if p.1 = key then eraseKey rest key else p :: eraseKey rest key

/-- Insert-or-overwrite a binding (semantics of `HashMap::insert` and
`BTreeMap::insert`: at most one value per key, a repeated insert at the same
key overwrites). -/
def assocSet {K : Type u} {A : Type v} [DecidableEq K]
    (l : List (K × A)) (key : K) (a : A) : List (K × A) :=
  (key, a) :: eraseKey l key

/-- One step of the scan for the greatest key that is `≤ version`. -/
def rangeStep {V : Type v} (version : Nat) (acc : Option (Nat × V)) (p : Nat × V) :
    Option (Nat × V) :=
  if p.1 ≤ version then
    match acc with
    | none => some p
    | some q => if q.1 < p.1 then some p else some q
  else acc

/-- Model of `writes_map.range(..=version).next_back()`: the entry with the
greatest key `≤ version` (unique since `BTreeMap` keys are unique). -/
def rangeMaxLe {V : Type v} (m : List (Nat × V)) (version : Nat) : Option (Nat × V) :=
  m.foldl (rangeStep version) none

/-- Model of `VersionedStorage<K, V>`: a lazy base-value callback plus a map
from cell id to that cell's write history (version-keyed map). -/
structure VersionedStorage (K : Type u) (V : Type v) where
  base_value_read_callback : K → StateResult V
  writes : List (K × List (Nat × V))

/-- Model of `VersionedStorage::read`.  Faithful to the source: the cell's
history is obtained by `self.writes[&cell_id]`, i.e. the panicking `Index`
lookup, NOT `HashMap::get`; only when the history map exists but holds no
write at a version `≤ version` is the base-value callback consulted, and a
callback failure panics through `.expect`. -/
def VersionedStorage.read {K : Type u} {V : Type v} [DecidableEq K]
    (s : VersionedStorage K V) (cell_id : K) (version : Nat) : ReadResult V :=
  match assocGet s.writes cell_id with
  | none => ReadResult.panicKeyNotFound
  | some writes_map =>
    match rangeMaxLe writes_map version with
    | some p => ReadResult.value p.2
    | none =>
      match s.base_value_read_callback cell_id with
      | Except.ok base_value => ReadResult.value base_value
      | Except.error _ => ReadResult.panicBaseValueError

/-- Model of `VersionedStorage::write`:
`self.writes.entry(cell_id).or_insert_with(BTreeMap::new)` followed by
`writes_map.insert(version, value)`. -/
def VersionedStorage.write {K : Type u} {V : Type v} [DecidableEq K]
    (s : VersionedStorage K V) (cell_id : K) (version : Nat) (value : V) :
    VersionedStorage K V :=
  let writes_map := (assocGet s.writes cell_id).getD []
  { s with writes := assocSet s.writes cell_id (assocSet writes_map version value) }

/-- The write-history entries the store currently holds for a cell
(empty when the cell has no history entry at all). -/
def cellEntries {K : Type u} {V : Type v} [DecidableEq K]
    (s : VersionedStorage K V) (cell_id : K) : List (Nat × V) :=
  (assocGet s.writes cell_id).getD []

section StorageLemmas

variable {K : Type u} {V : Type v} [DecidableEq K]

theorem assocGet_assocSet_self {A : Type v} (l : List (K × A)) (key : K)
    (a : A) : assocGet (assocSet l key a) key = some a := by
  simp [assocSet, assocGet]

theorem mem_of_mem_eraseKey {A : Type v} (l : List (K × A)) (key : K) (p : K × A)
    (h : p ∈ eraseKey l key) : p ∈ l := by
  induction l with
  | nil => simp [eraseKey] at h
  | cons q rest ih =>
    by_cases hq : q.1 = key
    · simp only [eraseKey, if_pos hq] at h
      exact List.mem_cons_of_mem _ (ih h)
    · simp only [eraseKey, if_neg hq, List.mem_cons] at h
      rcases h with h | h
      · exact h ▸ List.mem_cons_self _ _
      · exact List.mem_cons_of_mem _ (ih h)

/-- If the accumulator already holds a key that dominates every list key
that is `≤ version`, the scan keeps it. -/
theorem foldl_rangeStep_keep {version : Nat} (l : List (Nat × V)) (q : Nat × V)
    (hdom : ∀ p ∈ l, p.1 ≤ version → p.1 ≤ q.1) :
    l.foldl (rangeStep version) (some q) = some q := by
  induction l with
  | nil => rfl
  | cons p rest ih =>
    have hstep : rangeStep version (some q) p = some q := by
      unfold rangeStep
      by_cases hp : p.1 ≤ version
      · have hle : p.1 ≤ q.1 := hdom p (List.mem_cons_self _ _) hp
        simp [hp, Nat.not_lt.mpr hle]
      · simp [hp]
    simp only [List.foldl_cons, hstep]
    exact ih fun p hp hle => hdom p (List.mem_cons_of_mem _ hp) hle

/-- The scan ignores entries whose key exceeds the query bound. -/
theorem foldl_rangeStep_skip_all {version : Nat} (l : List (Nat × V))
    (acc : Option (Nat × V)) (h : ∀ p ∈ l, ¬ p.1 ≤ version) :
    l.foldl (rangeStep version) acc = acc := by
  induction l generalizing acc with
  | nil => rfl
  | cons p rest ih =>
    have hp : ¬ p.1 ≤ version := h p (List.mem_cons_self _ _)
    simp only [List.foldl_cons, rangeStep, if_neg hp]
    exact ih acc fun q hq => h q (List.mem_cons_of_mem _ hq)

/-- Keys strictly above the query bound are transparent to the scan, so
erasing such a key does not change the result. -/
theorem foldl_rangeStep_eraseKey {version k : Nat} (hk : version < k)
    (l : List (Nat × V)) (acc : Option (Nat × V)) :
    (eraseKey l k).foldl (rangeStep version) acc = l.foldl (rangeStep version) acc := by
  induction l generalizing acc with
  | nil => rfl
  | cons p rest ih =>
    by_cases hp : p.1 = k
    · have hnotle : ¬ p.1 ≤ version := by omega
      simp only [eraseKey, if_pos hp, List.foldl_cons, rangeStep, if_neg hnotle]
      exact ih acc
    · simp only [eraseKey, if_neg hp, List.foldl_cons]
      exact ih _

theorem rangeMaxLe_insert_self (m : List (Nat × V)) (ver : Nat) (x : V) :
    rangeMaxLe (assocSet m ver x) ver = some (ver, x) := by
  unfold rangeMaxLe assocSet
  simp only [List.foldl_cons, rangeStep, if_pos (Nat.le_refl ver)]
  exact foldl_rangeStep_keep _ _ fun p _ hle => hle

theorem rangeMaxLe_insert_of_no_between (m : List (Nat × V)) (ver ver' : Nat) (x : V)
    (hle : ver ≤ ver')
    (hno : ∀ p ∈ assocSet m ver x, ¬ (ver < p.1 ∧ p.1 ≤ ver')) :
    rangeMaxLe (assocSet m ver x) ver' = some (ver, x) := by
  unfold rangeMaxLe assocSet
  simp only [List.foldl_cons, rangeStep, if_pos hle]
  refine foldl_rangeStep_keep _ _ fun p hp hple => ?_
  have hmem : p ∈ assocSet m ver x := List.mem_cons_of_mem _ hp
  have := hno p hmem
  omega

theorem rangeMaxLe_insert_above (m : List (Nat × V)) (v1 v2 : Nat) (x : V)
    (hlt : v2 < v1) :
    rangeMaxLe (assocSet m v1 x) v2 = rangeMaxLe m v2 := by
  unfold rangeMaxLe assocSet
  have hnotle : ¬ v1 ≤ v2 := by omega
  simp only [List.foldl_cons, rangeStep, if_neg hnotle]
  exact foldl_rangeStep_eraseKey hlt m none

theorem rangeMaxLe_none (m : List (Nat × V)) (version : Nat)
    (h : ∀ p ∈ m, ¬ p.1 ≤ version) : rangeMaxLe m version = none :=
  foldl_rangeStep_skip_all m none h

/-- Unfolding `read` once the write-history entry of the cell is known. -/
theorem read_eq_of_get (s : VersionedStorage K V) (cell_id : K) (version : Nat)
    (m : List (Nat × V)) (hm : assocGet s.writes cell_id = some m) :
    s.read cell_id version =
      (match rangeMaxLe m version with
       | some p => ReadResult.value p.2
       | none =>
         match s.base_value_read_callback cell_id with
         | Except.ok base_value => ReadResult.value base_value
         | Except.error _ => ReadResult.panicBaseValueError) := by
  unfold VersionedStorage.read
  rw [hm]

theorem write_get_self (s : VersionedStorage K V) (cell_id : K) (ver : Nat) (x : V) :
    assocGet (s.write cell_id ver x).writes cell_id =
      some (assocSet (cellEntries s cell_id) ver x) :=
  assocGet_assocSet_self _ _ _

theorem write_callback (s : VersionedStorage K V) (cell_id : K) (ver : Nat) (x : V) :
    (s.write cell_id ver x).base_value_read_callback = s.base_value_read_callback :=
  rfl

theorem cellEntries_write_self (s : VersionedStorage K V) (cell_id : K) (ver : Nat)
    (x : V) :
    cellEntries (s.write cell_id ver x) cell_id =
      assocSet (cellEntries s cell_id) ver x := by
  unfold cellEntries
  rw [write_get_self]
  rfl

end StorageLemmas

/-- A concrete storage with an empty write map whose base-value callback
always succeeds, returning `7`. -/
def freshStorage : VersionedStorage Nat Nat :=
  { base_value_read_callback := fun _ => Except.ok 7, writes := [] }

/-- Claim C1 (code bug): for a cell with no write-history entry at all,
`VersionedStorage::read` does NOT return the base-value callback's result:
the `self.writes[&cell_id]` index panics on the missing key before the
callback is ever consulted.  Concretely, on a storage with an empty write
map and a callback that returns `Ok(7)`, `read(0, 5)` panics instead of
returning `7`. -/
theorem read_missing_cell_entry_panics :
    freshStorage.base_value_read_callback 0 = Except.ok 7 ∧
    freshStorage.read 0 5 = ReadResult.panicKeyNotFound ∧
    freshStorage.read 0 5 ≠ ReadResult.value 7 := by
  refine ⟨rfl, rfl, ?_⟩
  decide

/-- Supporting fact: the base-value fallback does work as specified whenever
the cell already has a write-history entry (possibly with no write at a low
enough version): reads below every recorded write return the callback value. -/
theorem read_base_value_when_history_exists {K : Type u} {V : Type v} [DecidableEq K]
    (s : VersionedStorage K V) (cell_id : K) (version : Nat) (m : List (Nat × V))
    (b : V)
    (hm : assocGet s.writes cell_id = some m)
    (hnone : ∀ p ∈ m, ¬ p.1 ≤ version)
    (hcb : s.base_value_read_callback cell_id = Except.ok b) :
    s.read cell_id version = ReadResult.value b := by
  rw [read_eq_of_get s cell_id version m hm, rangeMaxLe_none m version hnone, hcb]

/-- Witness for the supporting fact at a concrete input. -/
theorem read_base_value_when_history_exists_witness :
    (freshStorage.write 0 9 3).read 0 4 = ReadResult.value 7 :=
  read_base_value_when_history_exists (freshStorage.write 0 9 3) 0 4 [(9, 3)] 7
    rfl (by decide) rfl

/-- Claim C3: after `write(cell, v, x)`, `read(cell, v)` returns `x`; and for
any `v' > v`, if the store holds no write for that cell at a version in
`(v, v']`, `read(cell, v')` also returns `x` (monotonic visibility). -/
theorem write_then_read_visibility {K : Type u} {V : Type v} [DecidableEq K]
    (s : VersionedStorage K V) (cell_id : K) (ver : Nat) (x : V) :
    (s.write cell_id ver x).read cell_id ver = ReadResult.value x ∧
    ∀ ver', ver < ver' →
      (∀ p ∈ cellEntries (s.write cell_id ver x) cell_id, ¬ (ver < p.1 ∧ p.1 ≤ ver')) →
      (s.write cell_id ver x).read cell_id ver' = ReadResult.value x := by
  constructor
  · rw [read_eq_of_get _ cell_id ver _ (write_get_self s cell_id ver x),
      rangeMaxLe_insert_self]
  · intro ver' hlt hno
    rw [read_eq_of_get _ cell_id ver' _ (write_get_self s cell_id ver x),
      rangeMaxLe_insert_of_no_between _ _ _ _ (Nat.le_of_lt hlt)]
    intro p hp
    exact hno p (by rw [cellEntries_write_self]; exact hp)

/-- Witness for claim C3 at a concrete input: after `write(0, 2, 42)` on a
fresh store, `read(0, 2) = 42` and `read(0, 5) = 42`. -/
theorem write_then_read_visibility_witness :
    (freshStorage.write 0 2 42).read 0 2 = ReadResult.value 42 ∧
    (freshStorage.write 0 2 42).read 0 5 = ReadResult.value 42 :=
  ⟨(write_then_read_visibility freshStorage 0 2 42).1,
   (write_then_read_visibility freshStorage 0 2 42).2 5 (by decide) (by decide)⟩

/-- Claim C4 (code bug): `write(cell, v1, x)` CAN change the result of
`read(cell, v2)` for `v2 < v1`: on a storage where the cell has no
write-history entry, the read panics (missing-key index) before the write
and returns the base value after it.  Concretely: before `write(0, 1, 42)`,
`read(0, 0)` panics; afterwards it returns the base value `7`. -/
theorem write_above_changes_lower_read :
    freshStorage.read 0 0 = ReadResult.panicKeyNotFound ∧
    (freshStorage.write 0 1 42).read 0 0 = ReadResult.value 7 ∧
    freshStorage.read 0 0 ≠ (freshStorage.write 0 1 42).read 0 0 := by
  refine ⟨rfl, rfl, ?_⟩
  decide

/-- Supporting fact (the amended C4): whenever the cell already has a
write-history entry — equivalently, whenever the pre-write read does not
panic — a write at `v1` leaves every read at `v2 < v1` unchanged. -/
theorem write_preserves_lower_reads {K : Type u} {V : Type v} [DecidableEq K]
    (s : VersionedStorage K V) (cell_id : K) (v1 v2 : Nat) (x : V) (m : List (Nat × V))
    (hm : assocGet s.writes cell_id = some m)
    (hlt : v2 < v1) :
    (s.write cell_id v1 x).read cell_id v2 = s.read cell_id v2 := by
  rw [read_eq_of_get _ cell_id v2 _ (write_get_self s cell_id v1 x),
    read_eq_of_get s cell_id v2 m hm, write_callback]
  have hent : cellEntries s cell_id = m := by
    unfold cellEntries
    rw [hm]
    rfl
  rw [hent, rangeMaxLe_insert_above m v1 v2 x hlt]

/-- Witness for the amended-C4 supporting fact at a concrete input. -/
theorem write_preserves_lower_reads_witness :
    ((freshStorage.write 0 0 5).write 0 3 42).read 0 2 =
      (freshStorage.write 0 0 5).read 0 2 :=
  write_preserves_lower_reads (freshStorage.write 0 0 5) 0 3 2 42 [(0, 5)] rfl
    (by decide)

/-!
Part 2: the account-transaction execution pipeline
(`src/crates/blockifier/src/transaction/account_transaction.rs`).

Field elements (`StarkFelt`), fees (`u128`), addresses and hashes are
modelled as naturals holding their numeric value; the pipeline only ever
compares them for equality / order and increments a nonce, so no wraparound
is observable at the values the claims range over.  The external
collaborators (the entry-point call executor, `verify_no_calls_to_other_contracts`,
`get_fee_token_balance`, `calculate_tx_resources`, `calculate_tx_fee`) are
opaque to this crate and are supplied as an environment of functions; state
threading (`&mut` in Rust) becomes explicit `ChainState` passing, and every
function returns its final state next to its `Result`.
-/

/-- Model of `TransactionType`. -/
inductive TransactionType where
  | declare
  | deployAccount
  | invokeFunction
deriving DecidableEq, Repr

/-- Model of `AccountTransactionContext`: the immutable per-transaction
snapshot assembled by `get_account_transaction_context`. -/
structure AccountTransactionContext where
  transaction_hash : Nat
  max_fee : Nat
  version : Nat
  signature : List Nat
  nonce : Nat
  sender_address : Nat
deriving DecidableEq, Repr

/-- Model of `AccountTransaction`.  The per-kind payloads (`DeclareTransaction`,
`DeployAccountTransaction`, `InvokeTransaction`) are collapsed to the fields
the pipeline actually reads, namely exactly the context assembled by
`get_account_transaction_context`; the kind-specific accessor plumbing
(`tx.tx().max_fee()` and friends) is external to this file. -/
inductive AccountTransaction where
  | declare (d : AccountTransactionContext)
  | deployAccount (d : AccountTransactionContext)
  | invoke (d : AccountTransactionContext)
deriving DecidableEq, Repr

/-- Model of `AccountTransaction::get_account_transaction_context`. -/
def AccountTransaction.get_account_transaction_context :
    AccountTransaction → AccountTransactionContext
  | AccountTransaction.declare d => d
  | AccountTransaction.deployAccount d => d
  | AccountTransaction.invoke d => d

/-- Model of `AccountTransaction::max_fee`. -/
def AccountTransaction.max_fee (tx : AccountTransaction) : Nat :=
  tx.get_account_transaction_context.max_fee

/-- Model of `AccountTransaction::tx_type`. -/
def AccountTransaction.tx_type : AccountTransaction → TransactionType
  | AccountTransaction.declare _ => TransactionType.declare
  | AccountTransaction.deployAccount _ => TransactionType.deployAccount
  | AccountTransaction.invoke _ => TransactionType.invokeFunction

/-- `matches!(self, Self::DeployAccount(_))`. -/
def AccountTransaction.is_deploy_account : AccountTransaction → Bool
  | AccountTransaction.deployAccount _ => true
  | _ => false

/-- Model of an execution trace (`CallInfo`); its contents are opaque to the
pipeline, which only moves it around, so it is an abstract token. -/
structure CallInfo where
  call_id : Nat
deriving DecidableEq, Repr

/-- Model of `TransactionExecutionError` (the variants the five source files
construct or inspect).  `executionFailed` stands for the remaining variants
produced by the external call executor; it carries the optional remaining
step budget that `error.remaining_resources()` extracts. -/
inductive TxError where
  | invalidVersion (version : Nat) (allowed_versions : List Nat)
  | invalidNonce (address expected_nonce actual_nonce : Nat)
  | maxFeeExceedsBalance (max_fee balance_low balance_high : Nat)
  | feeTransferError (max_fee actual_fee : Nat)
  | validateTransactionError (msg : String)
  | unauthorizedInnerCall (entry_point : String)
  | entryPointExecutionError (msg : String)
  | stateError (msg : String)
  | executionFailed (msg : String) (remaining : Option Nat)
deriving DecidableEq, Repr

/-- Model of `TransactionExecutionError::remaining_resources()`: the remaining
VM step budget carried by execution-failure variants, absent elsewhere. -/
def TxError.remaining_resources : TxError → Option Nat
  | TxError.executionFailed _ r => r
  | _ => none

/-- A short rendering of each error, standing for its `Display` impl. -/
def TxError.describe : TxError → String
  | TxError.invalidVersion _ _ => "invalid transaction version"
  | TxError.invalidNonce _ _ _ => "invalid transaction nonce"
  | TxError.maxFeeExceedsBalance _ _ _ => "max fee exceeds balance"
  | TxError.feeTransferError _ _ => "actual fee exceeded max fee"
  | TxError.validateTransactionError m => m
  | TxError.unauthorizedInnerCall e => e
  | TxError.entryPointExecutionError m => m
  | TxError.stateError m => m
  | TxError.executionFailed m _ => m

/-- Modelled from the spec: `ExecutionContext::error_trace` lives in
`execution/entry_point.rs`, which is not under `src/`.  Per the spec, a
reverted transaction surfaces "a human-readable revert-error string" built
from the error trace of the failed execution; it is never empty since it at
least names the failure. -/
def errorTrace (e : TxError) : String :=
  "Transaction execution has failed: " ++ e.describe

/-- Model of the chain state visible through the `State` capability: the
nonce map (`get_nonce_at` / `increment_nonce`) plus one abstract cell map
standing for everything else writable (contract storage, class hashes,
balances). -/
structure ChainState where
  nonces : Nat → Nat
  storage : Nat → Nat

/-- Model of `ResourcesMapping` (resource name to consumed amount); a key
that was never inserted reads as `0`, matching `get(...).unwrap_or(&0)`. -/
def ResourcesMapping : Type := String → Nat

/-- `abi_constants::N_STEPS_RESOURCE`. -/
def N_STEPS_RESOURCE : String := "n_steps"

/-- `actual_resources.0.insert(N_STEPS_RESOURCE, old + consumed)`. -/
def addSteps (r : ResourcesMapping) (consumed : Nat) : ResourcesMapping :=
  fun key => if key = N_STEPS_RESOURCE then r key + consumed else r key

/-- Model of `RevertData`. -/
structure RevertData where
  revert_error : String
  remaining_resources : Option Nat
deriving DecidableEq, Repr

/-- Model of `ValidateExecuteCallInfo`. -/
structure ValidateExecuteCallInfo where
  validate_call_info : Option CallInfo
  execute_call_info : Option CallInfo
  revert_data : Option RevertData
deriving DecidableEq, Repr

/-- Model of `TransactionExecutionInfo`. -/
structure TransactionExecutionInfo where
  validate_call_info : Option CallInfo
  execute_call_info : Option CallInfo
  fee_transfer_call_info : Option CallInfo
  actual_fee : Nat
  actual_resources : ResourcesMapping
  revert_error : Option String

/-- Error type of a single entry-point execution (`EntryPointExecutionError`). -/
structure EntryPointError where
  msg : String
deriving DecidableEq, Repr

/-- The external collaborators of the pipeline, opaque beyond their
signatures: the call executor for the validate entry point, the
no-nested-calls check, the kind-specific `run_execute`, the fee-token
balance reader, the resource accountant, the fee calculator and the call
executor for the fee transfer.  `max_steps` models `context.max_steps()`. -/
structure ExecEnv where
  max_steps : Nat
  validate_execute : ChainState → Except EntryPointError (CallInfo × ChainState)
  validate_no_other_calls : CallInfo → Bool
  run_execute : ChainState → Except TxError (Option CallInfo × ChainState)
  get_fee_token_balance : ChainState → Nat → Except TxError (Nat × Nat)
  calculate_tx_resources : List CallInfo → Except TxError ResourcesMapping
  calculate_tx_fee : ResourcesMapping → Except TxError Nat
  fee_transfer_execute : ChainState → Nat → Except EntryPointError (CallInfo × ChainState)

/-- `constants::VALIDATE_ENTRY_POINT_NAME`. -/
def VALIDATE_ENTRY_POINT_NAME : String := "__validate__"

/-- The per-kind version allow-list of `verify_tx_version` (the inline
`allowed_versions` binding): declare supports versions 0, 1 and 2 (version 0
for bootstrapping), invoke 0 and 1, deploy-account only 1. -/
def AccountTransaction.allowed_versions : AccountTransaction → List Nat
  | AccountTransaction.declare _ => [0, 1, 2]
  | AccountTransaction.invoke _ => [0, 1]
  | _ => [1]

/-- Model of `AccountTransaction::verify_tx_version`. -/
def AccountTransaction.verify_tx_version (tx : AccountTransaction) (version : Nat) :
    Except TxError Unit :=
  if version ∈ tx.allowed_versions then Except.ok ()
  else Except.error (TxError.invalidVersion version tx.allowed_versions)

/-- Model of `AccountTransaction::handle_nonce`.  Version 0 skips the check;
otherwise the sender's current nonce must equal the stated nonce, and on a
match the stored nonce is incremented (field-element increment, modelled as
successor). -/
def handle_nonce (account_tx_context : AccountTransactionContext) (s : ChainState) :
    ChainState × Except TxError Unit :=
  if account_tx_context.version = 0 then (s, Except.ok ())
  else
    let address := account_tx_context.sender_address
    let current_nonce := s.nonces address
    if current_nonce ≠ account_tx_context.nonce then
      (s, Except.error
        (TxError.invalidNonce address current_nonce account_tx_context.nonce))
    else
      ({ s with nonces := fun a => if a = address then s.nonces a + 1 else s.nonces a },
       Except.ok ())

/-- Model of `AccountTransaction::enforce_fee`. -/
def AccountTransaction.enforce_fee (tx : AccountTransaction) : Bool :=
  tx.max_fee ≠ 0

/-- Model of `AccountTransaction::handle_nonce_and_check_fee_balance`:
run the nonce check, then, when fees are enforced, read the sender's
fee-token balance as a 128-bit low/high pair and reject when the high word
is zero and the low word is below the max fee. -/
def handle_nonce_and_check_fee_balance (env : ExecEnv) (tx : AccountTransaction)
    (account_tx_context : AccountTransactionContext) (s : ChainState) :
    ChainState × Except TxError Unit :=
  match handle_nonce account_tx_context s with
  | (s1, Except.error e) => (s1, Except.error e)
  | (s1, Except.ok _) =>
    if tx.enforce_fee then
      match env.get_fee_token_balance s1 account_tx_context.sender_address with
      | Except.error e => (s1, Except.error e)
      | Except.ok (balance_low, balance_high) =>
        if balance_high = 0 ∧ balance_low < account_tx_context.max_fee then
          (s1, Except.error (TxError.maxFeeExceedsBalance
            account_tx_context.max_fee balance_low balance_high))
        else (s1, Except.ok ())
    else (s1, Except.ok ())

/-- Model of `AccountTransaction::validate_tx`: skipped for version 0;
otherwise the validate entry point is executed and its trace must contain no
calls to other contracts.  A failing call is modelled as leaving the state
untouched (its partial writes are unobservable: every error from here is
terminal for the transaction). -/
def validate_tx (env : ExecEnv) (account_tx_context : AccountTransactionContext)
    (s : ChainState) : ChainState × Except TxError (Option CallInfo) :=
  if account_tx_context.version = 0 then (s, Except.ok none)
  else
    match env.validate_execute s with
    | Except.error e => (s, Except.error (TxError.validateTransactionError e.msg))
    | Except.ok (validate_call_info, s1) =>
      if env.validate_no_other_calls validate_call_info then
        (s1, Except.ok (some validate_call_info))
      else
        (s1, Except.error (TxError.unauthorizedInnerCall VALIDATE_ENTRY_POINT_NAME))

/-- Model of `AccountTransaction::run_or_revert`.  Deploy-account runs its
execute phase directly (failures are hard errors) followed by validation.
Every other kind validates first, then runs the execute phase against a
discardable overlay: on failure the overlay is dropped (the returned state
is exactly the post-validate state) and a `RevertData` with the error trace
and the remaining step budget is recorded; on success the overlay is
committed (the returned state is the post-execute state). -/
def run_or_revert (env : ExecEnv) (tx : AccountTransaction)
    (account_tx_context : AccountTransactionContext) (s : ChainState) :
    ChainState × Except TxError ValidateExecuteCallInfo :=
  if tx.is_deploy_account then
    match env.run_execute s with
    | Except.error e => (s, Except.error e)
    | Except.ok (execute_call_info, s1) =>
      match validate_tx env account_tx_context s1 with
      | (s2, Except.error e) => (s2, Except.error e)
      | (s2, Except.ok validate_call_info) =>
        (s2, Except.ok
          { validate_call_info := validate_call_info
          , execute_call_info := execute_call_info
          , revert_data := none })
  else
    match validate_tx env account_tx_context s with
    | (s1, Except.error e) => (s1, Except.error e)
    | (s1, Except.ok validate_call_info) =>
      match env.run_execute s1 with
      | Except.error error =>
        (s1, Except.ok
          { validate_call_info := validate_call_info
          , execute_call_info := none
          , revert_data := some
              { revert_error := errorTrace error
              , remaining_resources := error.remaining_resources } })
      | Except.ok (execute_call_info, s2) =>
        (s2, Except.ok
          { validate_call_info := validate_call_info
          , execute_call_info := execute_call_info
          , revert_data := none })

/-- The revert-accounting block of `execute_raw` (source lines 389-404):
when the revert record carries a remaining step budget, a simultaneously
present execute trace is a fatal invariant violation (`panic!`, modelled as
the `error` case), otherwise `max_steps - remaining` steps are folded into
the step-resource entry. -/
def account_revert_steps (max_steps : Nat) (actual_resources : ResourcesMapping)
    (execute_call_info : Option CallInfo) (revert_data : Option RevertData) :
    Except String ResourcesMapping :=
  match revert_data with
  | some rd =>
    match rd.remaining_resources with
    | some remaining_resources =>
      if execute_call_info.isSome then
        Except.error "Reverted transaction cannot contain non-trivial execution call info"
      else
        Except.ok (addSteps actual_resources (max_steps - remaining_resources))
    | none => Except.ok actual_resources
  | none => Except.ok actual_resources

/-- Model of `AccountTransaction::execute_fee_transfer`: an actual fee above
the declared max fee is a `FeeTransferError`; otherwise the transfer entry
point is executed. -/
def execute_fee_transfer (env : ExecEnv)
    (account_tx_context : AccountTransactionContext) (s : ChainState)
    (actual_fee : Nat) : ChainState × Except TxError CallInfo :=
  if account_tx_context.max_fee < actual_fee then
    (s, Except.error (TxError.feeTransferError account_tx_context.max_fee actual_fee))
  else
    match env.fee_transfer_execute s actual_fee with
    | Except.error e => (s, Except.error (TxError.entryPointExecutionError e.msg))
    | Except.ok (call_info, s1) => (s1, Except.ok call_info)

/-- Model of `AccountTransaction::charge_fee`: a zero max fee short-circuits
to a zero fee with no transfer; otherwise the fee is recomputed from the
accounted resources and transferred. -/
def charge_fee (env : ExecEnv) (account_tx_context : AccountTransactionContext)
    (s : ChainState) (resources : ResourcesMapping) :
    ChainState × Except TxError (Nat × Option CallInfo) :=
  if account_tx_context.max_fee = 0 then (s, Except.ok (0, none))
  else
    match env.calculate_tx_fee resources with
    | Except.error e => (s, Except.error e)
    | Except.ok actual_fee =>
      match execute_fee_transfer env account_tx_context s actual_fee with
      | (s1, Except.error e) => (s1, Except.error e)
      | (s1, Except.ok fee_transfer_call_info) =>
        (s1, Except.ok (actual_fee, some fee_transfer_call_info))

/-- Outcome of `execute_raw`: an `Ok` execution info, a structured error, or
a Rust `panic!`. -/
inductive RawOutcome where
  | ok (info : TransactionExecutionInfo)
  | err (e : TxError)
  | panicked (msg : String)

/-- Model of `ExecutableTransaction::execute_raw` for `AccountTransaction`:
version check, nonce and balance checks, validation and execution with
optional revert, resource accounting (with the revert step fold-in and its
panic guard), fee charge, and assembly of the final execution info. -/
def execute_raw (env : ExecEnv) (tx : AccountTransaction) (s : ChainState) :
    ChainState × RawOutcome :=
  let account_tx_context := tx.get_account_transaction_context
  match tx.verify_tx_version account_tx_context.version with
  | Except.error e => (s, RawOutcome.err e)
  | Except.ok _ =>
    let max_steps := env.max_steps
    match handle_nonce_and_check_fee_balance env tx account_tx_context s with
    | (s1, Except.error e) => (s1, RawOutcome.err e)
    | (s1, Except.ok _) =>
      match run_or_revert env tx account_tx_context s1 with
      | (s2, Except.error e) => (s2, RawOutcome.err e)
      | (s2, Except.ok veci) =>
        let non_optional_call_infos :=
          veci.validate_call_info.toList ++ veci.execute_call_info.toList
        match env.calculate_tx_resources non_optional_call_infos with
        | Except.error e => (s2, RawOutcome.err e)
        | Except.ok resources0 =>
          match account_revert_steps max_steps resources0 veci.execute_call_info
              veci.revert_data with
          | Except.error msg => (s2, RawOutcome.panicked msg)
          | Except.ok actual_resources =>
            match charge_fee env account_tx_context s2 actual_resources with
            | (s3, Except.error e) => (s3, RawOutcome.err e)
            | (s3, Except.ok (actual_fee, fee_transfer_call_info)) =>
              (s3, RawOutcome.ok
                { validate_call_info := veci.validate_call_info
                , execute_call_info := veci.execute_call_info
                , fee_transfer_call_info := fee_transfer_call_info
                , actual_fee := actual_fee
                , actual_resources := actual_resources
                , revert_error := Option.map RevertData.revert_error veci.revert_data })

/-- Claim C6: `verify_tx_version` succeeds exactly when the version is in the
kind's allow-list (declare 0/1/2, invoke 0/1, deploy-account 1) and otherwise
returns `InvalidVersion`; consequently `execute_raw` on a transaction whose
version is outside the allow-list terminates with `InvalidVersion` with the
state unchanged. -/
theorem verify_tx_version_spec (tx : AccountTransaction) (version : Nat) :
    (tx.verify_tx_version version = Except.ok () ↔ version ∈ tx.allowed_versions) ∧
    (tx.allowed_versions =
      match tx with
      | AccountTransaction.declare _ => [0, 1, 2]
      | AccountTransaction.invoke _ => [0, 1]
      | AccountTransaction.deployAccount _ => [1]) ∧
    (version ∉ tx.allowed_versions →
      tx.verify_tx_version version =
        Except.error (TxError.invalidVersion version tx.allowed_versions)) ∧
    (∀ (env : ExecEnv) (s : ChainState),
      tx.get_account_transaction_context.version ∉ tx.allowed_versions →
      execute_raw env tx s =
        (s, RawOutcome.err (TxError.invalidVersion
          tx.get_account_transaction_context.version tx.allowed_versions))) := by
  refine ⟨?_, ?_, ?_, ?_⟩
  · unfold AccountTransaction.verify_tx_version
    by_cases hmem : version ∈ tx.allowed_versions
    · simp [hmem]
    · simp [hmem]
  · cases tx <;> rfl
  · intro hmem
    unfold AccountTransaction.verify_tx_version
    rw [if_neg hmem]
  · intro env s hmem
    have hv : tx.verify_tx_version tx.get_account_transaction_context.version =
        Except.error (TxError.invalidVersion
          tx.get_account_transaction_context.version tx.allowed_versions) := by
      unfold AccountTransaction.verify_tx_version
      rw [if_neg hmem]
    simp only [execute_raw]
    rw [hv]

/-- Witness for claim C6: an invoke transaction of version 5 is rejected. -/
theorem verify_tx_version_spec_witness :
    (AccountTransaction.invoke
      { transaction_hash := 1, max_fee := 10, version := 5, signature := [],
        nonce := 0, sender_address := 2 }).verify_tx_version 5 =
      Except.error (TxError.invalidVersion 5 [0, 1]) :=
  (verify_tx_version_spec (AccountTransaction.invoke
      { transaction_hash := 1, max_fee := 10, version := 5, signature := [],
        nonce := 0, sender_address := 2 }) 5).2.2.1 (by decide)

/-- Claim C7: once the nonce part has passed, a zero max fee skips the
balance check entirely (the balance oracle is never consulted), and a
non-zero max fee reads the sender's (low, high) fee-token balance and
rejects with `MaxFeeExceedsBalance` exactly when the high word is zero and
the low word is strictly below the max fee. -/
theorem fee_balance_check_spec (env : ExecEnv) (tx : AccountTransaction)
    (s s1 : ChainState)
    (hn : handle_nonce tx.get_account_transaction_context s = (s1, Except.ok ())) :
    (tx.max_fee = 0 →
      handle_nonce_and_check_fee_balance env tx tx.get_account_transaction_context s
        = (s1, Except.ok ())) ∧
    (∀ balance_low balance_high : Nat,
      tx.max_fee ≠ 0 →
      env.get_fee_token_balance s1 tx.get_account_transaction_context.sender_address
        = Except.ok (balance_low, balance_high) →
      handle_nonce_and_check_fee_balance env tx tx.get_account_transaction_context s
        = (if balance_high = 0 ∧ balance_low < tx.max_fee then
             (s1, Except.error (TxError.maxFeeExceedsBalance tx.max_fee
               balance_low balance_high))
           else (s1, Except.ok ()))) := by
  constructor
  · intro h0
    have hef : tx.enforce_fee = false := by
      simp [AccountTransaction.enforce_fee, h0]
    simp only [handle_nonce_and_check_fee_balance]
    rw [hn, hef]
    simp
  · intro balance_low balance_high hne hbal
    have hef : tx.enforce_fee = true := by
      simp [AccountTransaction.enforce_fee, hne]
    simp only [handle_nonce_and_check_fee_balance]
    rw [hn, hef]
    simp only [if_true]
    rw [hbal]
    simp only [AccountTransaction.max_fee]

/-- Witness for claim C7 at the spec scenario `max_fee = 1000`,
`balance = (500, 0)`: the check rejects with `MaxFeeExceedsBalance`. -/
theorem fee_balance_check_spec_witness :
    handle_nonce_and_check_fee_balance
      { max_steps := 100
      , validate_execute := fun s => Except.ok ({ call_id := 1 }, s)
      , validate_no_other_calls := fun _ => true
      , run_execute := fun s => Except.ok (some { call_id := 2 }, s)
      , get_fee_token_balance := fun _ _ => Except.ok (500, 0)
      , calculate_tx_resources := fun _ => Except.ok (fun _ => 5)
      , calculate_tx_fee := fun _ => Except.ok 10
      , fee_transfer_execute := fun s _ => Except.ok ({ call_id := 3 }, s) }
      (AccountTransaction.invoke
        { transaction_hash := 1, max_fee := 1000, version := 1, signature := [],
          nonce := 5, sender_address := 9 })
      (AccountTransaction.invoke
        { transaction_hash := 1, max_fee := 1000, version := 1, signature := [],
          nonce := 5, sender_address := 9 }).get_account_transaction_context
      { nonces := fun _ => 5, storage := fun _ => 0 }
      = ((handle_nonce
            (AccountTransaction.invoke
              { transaction_hash := 1, max_fee := 1000, version := 1, signature := [],
                nonce := 5, sender_address := 9 }).get_account_transaction_context
            { nonces := fun _ => 5, storage := fun _ => 0 }).1,
         Except.error (TxError.maxFeeExceedsBalance 1000 500 0)) := by
  have h := (fee_balance_check_spec
    { max_steps := 100
    , validate_execute := fun s => Except.ok ({ call_id := 1 }, s)
    , validate_no_other_calls := fun _ => true
    , run_execute := fun s => Except.ok (some { call_id := 2 }, s)
    , get_fee_token_balance := fun _ _ => Except.ok (500, 0)
    , calculate_tx_resources := fun _ => Except.ok (fun _ => 5)
    , calculate_tx_fee := fun _ => Except.ok 10
    , fee_transfer_execute := fun s _ => Except.ok ({ call_id := 3 }, s) }
    (AccountTransaction.invoke
      { transaction_hash := 1, max_fee := 1000, version := 1, signature := [],
        nonce := 5, sender_address := 9 })
    { nonces := fun _ => 5, storage := fun _ => 0 }
    ((handle_nonce
        (AccountTransaction.invoke
          { transaction_hash := 1, max_fee := 1000, version := 1, signature := [],
            nonce := 5, sender_address := 9 }).get_account_transaction_context
        { nonces := fun _ => 5, storage := fun _ => 0 }).1)
    rfl).2 500 0 (by decide) rfl
  simpa using h

/-- Claim C9: the accounting step halts with a panic whenever the revert
record carries a remaining-resource value while an execute trace is present;
and for every `Ok` output of `run_or_revert` that combination is unreachable:
a present `revert_data` forces an absent `execute_call_info`. -/
theorem revert_data_exclusivity_spec :
    (∀ (max_steps : Nat) (r : ResourcesMapping) (ci : CallInfo) (msg : String)
        (remaining : Nat),
      account_revert_steps max_steps r (some ci)
          (some { revert_error := msg, remaining_resources := some remaining }) =
        Except.error
          "Reverted transaction cannot contain non-trivial execution call info") ∧
    (∀ (env : ExecEnv) (tx : AccountTransaction)
        (account_tx_context : AccountTransactionContext) (s sOut : ChainState)
        (veci : ValidateExecuteCallInfo),
      run_or_revert env tx account_tx_context s = (sOut, Except.ok veci) →
      veci.revert_data.isSome = true →
      veci.execute_call_info = none) := by
  constructor
  · intro max_steps r ci msg remaining
    rfl
  · intro env tx account_tx_context s sOut veci h hrev
    unfold run_or_revert at h
    split at h
    · split at h
      · simp at h
      · split at h
        · simp at h
        · obtain ⟨-, h2⟩ := Prod.mk.injEq .. ▸ h
          obtain ⟨rfl⟩ := Except.ok.injEq .. ▸ h2
          simp at hrev
    · split at h
      · simp at h
      · split at h
        · obtain ⟨-, h2⟩ := Prod.mk.injEq .. ▸ h
          obtain ⟨rfl⟩ := Except.ok.injEq .. ▸ h2
          rfl
        · obtain ⟨-, h2⟩ := Prod.mk.injEq .. ▸ h
          obtain ⟨rfl⟩ := Except.ok.injEq .. ▸ h2
          simp at hrev

/-- Witness for claim C9: the panic guard fires at a concrete forbidden
combination, and a concrete revert output of `run_or_revert` indeed has no
execute trace. -/
theorem revert_data_exclusivity_spec_witness :
    account_revert_steps 100 (fun _ => 5) (some { call_id := 2 })
        (some { revert_error := "e", remaining_resources := some 60 }) =
      Except.error
        "Reverted transaction cannot contain non-trivial execution call info" ∧
    ValidateExecuteCallInfo.execute_call_info
      { validate_call_info := some { call_id := 1 }
      , execute_call_info := none
      , revert_data := some
          { revert_error := errorTrace (TxError.executionFailed "out of steps" (some 60))
          , remaining_resources := some 60 } } = none :=
  ⟨revert_data_exclusivity_spec.1 100 (fun _ => 5) { call_id := 2 } "e" 60,
   revert_data_exclusivity_spec.2
     { max_steps := 100
     , validate_execute := fun s => Except.ok ({ call_id := 1 }, s)
     , validate_no_other_calls := fun _ => true
     , run_execute := fun _ => Except.error (TxError.executionFailed "out of steps" (some 60))
     , get_fee_token_balance := fun _ _ => Except.ok (2000, 0)
     , calculate_tx_resources := fun _ => Except.ok (fun _ => 5)
     , calculate_tx_fee := fun _ => Except.ok 10
     , fee_transfer_execute := fun s _ => Except.ok ({ call_id := 3 }, s) }
     (AccountTransaction.invoke
       { transaction_hash := 1, max_fee := 1000, version := 1, signature := [],
         nonce := 5, sender_address := 9 })
     (AccountTransaction.invoke
       { transaction_hash := 1, max_fee := 1000, version := 1, signature := [],
         nonce := 5, sender_address := 9 }).get_account_transaction_context
     { nonces := fun _ => 5, storage := fun _ => 0 }
     { nonces := fun _ => 5, storage := fun _ => 0 }
     { validate_call_info := some { call_id := 1 }
     , execute_call_info := none
     , revert_data := some
         { revert_error := errorTrace (TxError.executionFailed "out of steps" (some 60))
         , remaining_resources := some 60 } }
     rfl rfl⟩

/-- Claim C8: a zero max fee short-circuits the fee-charge step to a zero
actual fee with no fee-transfer trace; hence every `Ok` result of
`execute_raw` for a transaction with `max_fee = 0` has `actual_fee = 0` and
no fee-transfer trace, regardless of the resources consumed. -/
theorem zero_max_fee_spec :
    (∀ (env : ExecEnv) (account_tx_context : AccountTransactionContext)
        (s : ChainState) (r : ResourcesMapping),
      account_tx_context.max_fee = 0 →
      charge_fee env account_tx_context s r = (s, Except.ok (0, none))) ∧
    (∀ (env : ExecEnv) (tx : AccountTransaction) (s sOut : ChainState)
        (info : TransactionExecutionInfo),
      tx.max_fee = 0 →
      execute_raw env tx s = (sOut, RawOutcome.ok info) →
      info.actual_fee = 0 ∧ info.fee_transfer_call_info = none) := by
  have hcf : ∀ (env : ExecEnv) (c : AccountTransactionContext) (s : ChainState)
      (r : ResourcesMapping), c.max_fee = 0 →
      charge_fee env c s r = (s, Except.ok (0, none)) := by
    intro env c s r h0
    unfold charge_fee
    rw [if_pos h0]
  refine ⟨hcf, ?_⟩
  intro env tx s sOut info hmax h
  simp only [execute_raw] at h
  split at h
  · simp at h
  · split at h
    · simp at h
    · split at h
      · simp at h
      · split at h
        · simp at h
        · split at h
          · simp at h
          · split at h
            · simp at h
            · rename_i heq
              have hmax0 : tx.get_account_transaction_context.max_fee = 0 := hmax
              rw [hcf env _ _ _ hmax0] at heq
              simp only [Prod.mk.injEq, Except.ok.injEq] at heq
              obtain ⟨-, hfee, hft⟩ := heq
              simp only [Prod.mk.injEq, RawOutcome.ok.injEq] at h
              obtain ⟨-, hinfo⟩ := h
              subst hinfo
              exact ⟨hfee.symm, hft.symm⟩

/-- Witness for claim C8: a concrete zero-max-fee transaction executes to an
`Ok` info with zero fee and no transfer trace. -/
theorem zero_max_fee_spec_witness :
    TransactionExecutionInfo.actual_fee
      { validate_call_info := some { call_id := 1 }
      , execute_call_info := some { call_id := 2 }
      , fee_transfer_call_info := none
      , actual_fee := 0
      , actual_resources := fun _ => 5
      , revert_error := none } = 0 ∧
    TransactionExecutionInfo.fee_transfer_call_info
      { validate_call_info := some { call_id := 1 }
      , execute_call_info := some { call_id := 2 }
      , fee_transfer_call_info := none
      , actual_fee := 0
      , actual_resources := fun _ => 5
      , revert_error := none } = none :=
  zero_max_fee_spec.2
    { max_steps := 100
    , validate_execute := fun s => Except.ok ({ call_id := 1 }, s)
    , validate_no_other_calls := fun _ => true
    , run_execute := fun s => Except.ok (some { call_id := 2 }, s)
    , get_fee_token_balance := fun _ _ => Except.ok (2000, 0)
    , calculate_tx_resources := fun _ => Except.ok (fun _ => 5)
    , calculate_tx_fee := fun _ => Except.ok 10
    , fee_transfer_execute := fun s _ => Except.ok ({ call_id := 3 }, s) }
    (AccountTransaction.invoke
      { transaction_hash := 1, max_fee := 0, version := 1, signature := [],
        nonce := 5, sender_address := 9 })
    { nonces := fun _ => 5, storage := fun _ => 0 }
    ((execute_raw
      { max_steps := 100
      , validate_execute := fun s => Except.ok ({ call_id := 1 }, s)
      , validate_no_other_calls := fun _ => true
      , run_execute := fun s => Except.ok (some { call_id := 2 }, s)
      , get_fee_token_balance := fun _ _ => Except.ok (2000, 0)
      , calculate_tx_resources := fun _ => Except.ok (fun _ => 5)
      , calculate_tx_fee := fun _ => Except.ok 10
      , fee_transfer_execute := fun s _ => Except.ok ({ call_id := 3 }, s) }
      (AccountTransaction.invoke
        { transaction_hash := 1, max_fee := 0, version := 1, signature := [],
          nonce := 5, sender_address := 9 })
      { nonces := fun _ => 5, storage := fun _ => 0 }).1)
    { validate_call_info := some { call_id := 1 }
    , execute_call_info := some { call_id := 2 }
    , fee_transfer_call_info := none
    , actual_fee := 0
    , actual_resources := fun _ => 5
    , revert_error := none }
    rfl rfl

/-- On a version > 0 transaction with matching nonce, `handle_nonce`
succeeds and increments the sender's stored nonce. -/
theorem handle_nonce_match (c : AccountTransactionContext) (s : ChainState)
    (hver : c.version ≠ 0) (hm : s.nonces c.sender_address = c.nonce) :
    handle_nonce c s =
      ({ s with nonces := fun a =>
          if a = c.sender_address then s.nonces a + 1 else s.nonces a },
       Except.ok ()) := by
  simp only [handle_nonce]
  rw [if_neg hver, if_neg (by simp [hm])]

/-- The state returned by `handle_nonce_and_check_fee_balance` is always the
one produced by the nonce handling (the balance check never writes). -/
theorem hnb_fst (env : ExecEnv) (tx : AccountTransaction)
    (c : AccountTransactionContext) (s : ChainState) :
    (handle_nonce_and_check_fee_balance env tx c s).1 = (handle_nonce c s).1 := by
  unfold handle_nonce_and_check_fee_balance
  split
  · rename_i s1 e heq
    rw [heq]
  · rename_i s1 heq
    rw [heq]
    repeat' split
    all_goals rfl

/-- `validate_tx` never changes a nonce, provided the validate call itself
does not (the nonce map only ever moves through `increment_nonce`). -/
theorem validate_tx_nonces (env : ExecEnv) (c : AccountTransactionContext)
    (addr : Nat)
    (hpv : ∀ (t : ChainState) (ci : CallInfo) (t' : ChainState),
      env.validate_execute t = Except.ok (ci, t') → t'.nonces addr = t.nonces addr)
    (s : ChainState) :
    ((validate_tx env c s).1).nonces addr = s.nonces addr := by
  unfold validate_tx
  split
  · rfl
  · split
    · rfl
    · rename_i ci s1 heq
      split
      · exact hpv s ci s1 heq
      · exact hpv s ci s1 heq

/-- `run_or_revert` never changes a nonce, provided neither the validate
call nor the execute run does. -/
theorem run_or_revert_nonces (env : ExecEnv) (tx : AccountTransaction)
    (c : AccountTransactionContext) (addr : Nat)
    (hpv : ∀ (t : ChainState) (ci : CallInfo) (t' : ChainState),
      env.validate_execute t = Except.ok (ci, t') → t'.nonces addr = t.nonces addr)
    (hpe : ∀ (t : ChainState) (ci : Option CallInfo) (t' : ChainState),
      env.run_execute t = Except.ok (ci, t') → t'.nonces addr = t.nonces addr)
    (s : ChainState) :
    ((run_or_revert env tx c s).1).nonces addr = s.nonces addr := by
  unfold run_or_revert
  split
  · split
    · rfl
    · rename_i ci s1 heq
      split
      · rename_i s2 e heq2
        have h2 : s2 = (validate_tx env c s1).1 := (congrArg Prod.fst heq2).symm
        rw [h2, validate_tx_nonces env c addr hpv s1]
        exact hpe s ci s1 heq
      · rename_i s2 vci heq2
        have h2 : s2 = (validate_tx env c s1).1 := (congrArg Prod.fst heq2).symm
        rw [h2, validate_tx_nonces env c addr hpv s1]
        exact hpe s ci s1 heq
  · split
    · rename_i s1 e heq
      have h1 : s1 = (validate_tx env c s).1 := (congrArg Prod.fst heq).symm
      rw [h1, validate_tx_nonces env c addr hpv s]
    · rename_i s1 vci heq
      have h1 : s1 = (validate_tx env c s).1 := (congrArg Prod.fst heq).symm
      split
      · rw [h1, validate_tx_nonces env c addr hpv s]
      · rename_i eci s2 heq2
        rw [hpe s1 eci s2 heq2, h1, validate_tx_nonces env c addr hpv s]

/-- `execute_fee_transfer` never changes a nonce, provided the transfer call
does not. -/
theorem execute_fee_transfer_nonces (env : ExecEnv)
    (c : AccountTransactionContext) (addr : Nat)
    (hpf : ∀ (t : ChainState) (fee : Nat) (ci : CallInfo) (t' : ChainState),
      env.fee_transfer_execute t fee = Except.ok (ci, t') →
      t'.nonces addr = t.nonces addr)
    (s : ChainState) (actual_fee : Nat) :
    ((execute_fee_transfer env c s actual_fee).1).nonces addr = s.nonces addr := by
  unfold execute_fee_transfer
  split
  · rfl
  · split
    · rfl
    · rename_i ci s1 heq
      exact hpf s actual_fee ci s1 heq

/-- `charge_fee` never changes a nonce, provided the transfer call does not. -/
theorem charge_fee_nonces (env : ExecEnv) (c : AccountTransactionContext)
    (addr : Nat)
    (hpf : ∀ (t : ChainState) (fee : Nat) (ci : CallInfo) (t' : ChainState),
      env.fee_transfer_execute t fee = Except.ok (ci, t') →
      t'.nonces addr = t.nonces addr)
    (s : ChainState) (r : ResourcesMapping) :
    ((charge_fee env c s r).1).nonces addr = s.nonces addr := by
  unfold charge_fee
  split
  · rfl
  · split
    · rfl
    · rename_i fee heqf
      split
      · rename_i s1 e heq
        have h1 : s1 = (execute_fee_transfer env c s fee).1 :=
          (congrArg Prod.fst heq).symm
        rw [h1, execute_fee_transfer_nonces env c addr hpf s fee]
      · rename_i s1 ci heq
        have h1 : s1 = (execute_fee_transfer env c s fee).1 :=
          (congrArg Prod.fst heq).symm
        rw [h1, execute_fee_transfer_nonces env c addr hpf s fee]

/-- Claim C5: for a version > 0 transaction, a stored/stated nonce mismatch
makes `handle_nonce` fail with `InvalidNonce{expected = stored, actual =
stated}` leaving the state untouched; a match increments the stored nonce;
and once incremented, the increment survives every later outcome of
`execute_raw` — balance rejection, validate failure, execute revert, the
panic guard, or a fee failure — because the execute overlay is the only
thing ever discarded (the entry-point calls themselves never touch the
nonce map, hypotheses `hpv` / `hpe` / `hpf`). -/
theorem nonce_check_and_increment_spec (env : ExecEnv) (tx : AccountTransaction)
    (s : ChainState) (c : AccountTransactionContext)
    (hctx : c = tx.get_account_transaction_context)
    (hver : c.version ≠ 0)
    (hpv : ∀ (t : ChainState) (ci : CallInfo) (t' : ChainState),
      env.validate_execute t = Except.ok (ci, t') →
      t'.nonces c.sender_address = t.nonces c.sender_address)
    (hpe : ∀ (t : ChainState) (ci : Option CallInfo) (t' : ChainState),
      env.run_execute t = Except.ok (ci, t') →
      t'.nonces c.sender_address = t.nonces c.sender_address)
    (hpf : ∀ (t : ChainState) (fee : Nat) (ci : CallInfo) (t' : ChainState),
      env.fee_transfer_execute t fee = Except.ok (ci, t') →
      t'.nonces c.sender_address = t.nonces c.sender_address) :
    (s.nonces c.sender_address ≠ c.nonce →
      handle_nonce c s =
        (s, Except.error (TxError.invalidNonce c.sender_address
          (s.nonces c.sender_address) c.nonce))) ∧
    (s.nonces c.sender_address = c.nonce →
      (handle_nonce c s).2 = Except.ok () ∧
      ((handle_nonce c s).1).nonces c.sender_address =
        s.nonces c.sender_address + 1) ∧
    (tx.verify_tx_version c.version = Except.ok () →
     s.nonces c.sender_address = c.nonce →
      ((execute_raw env tx s).1).nonces c.sender_address =
        s.nonces c.sender_address + 1) := by
  refine ⟨?_, ?_, ?_⟩
  · intro hne
    simp only [handle_nonce]
    rw [if_neg hver, if_pos hne]
  · intro hm
    rw [handle_nonce_match c s hver hm]
    exact ⟨rfl, by simp⟩
  · intro hv hm
    have hincr : ((handle_nonce c s).1).nonces c.sender_address =
        s.nonces c.sender_address + 1 := by
      rw [handle_nonce_match c s hver hm]
      simp
    subst hctx
    simp only [execute_raw, hv]
    split
    · rename_i s1 e heq
      have h1 : s1 = (handle_nonce_and_check_fee_balance env tx
          tx.get_account_transaction_context s).1 := (congrArg Prod.fst heq).symm
      rw [h1, hnb_fst]
      exact hincr
    · rename_i s1 u heq
      have h1 : s1 = (handle_nonce_and_check_fee_balance env tx
          tx.get_account_transaction_context s).1 := (congrArg Prod.fst heq).symm
      have hs1 : s1.nonces tx.get_account_transaction_context.sender_address =
          s.nonces tx.get_account_transaction_context.sender_address + 1 := by
        rw [h1, hnb_fst]
        exact hincr
      split
      · rename_i s2 e heq2
        have h2 : s2 = (run_or_revert env tx
            tx.get_account_transaction_context s1).1 := (congrArg Prod.fst heq2).symm
        rw [h2, run_or_revert_nonces env tx _ _ hpv hpe s1]
        exact hs1
      · rename_i s2 veci heq2
        have h2 : s2.nonces tx.get_account_transaction_context.sender_address =
            s.nonces tx.get_account_transaction_context.sender_address + 1 := by
          have h2a : s2 = (run_or_revert env tx
              tx.get_account_transaction_context s1).1 :=
            (congrArg Prod.fst heq2).symm
          rw [h2a, run_or_revert_nonces env tx _ _ hpv hpe s1]
          exact hs1
        split
        · exact h2
        · split
          · exact h2
          · split
            · rename_i s3 e heq3
              have h3 : s3 = (charge_fee env
                  tx.get_account_transaction_context s2 _).1 :=
                (congrArg Prod.fst heq3).symm
              rw [h3, charge_fee_nonces env _ _ hpf s2 _]
              exact h2
            · rename_i s3 fee ft heq3
              have h3 : s3 = (charge_fee env
                  tx.get_account_transaction_context s2 _).1 :=
                (congrArg Prod.fst heq3).symm
              rw [h3, charge_fee_nonces env _ _ hpf s2 _]
              exact h2

/-- Witness for claim C5: a concrete version-1 transaction with matching
nonce 5 ends `execute_raw` with the sender nonce stored as 6. -/
theorem nonce_check_and_increment_spec_witness :
    ((execute_raw
      { max_steps := 100
      , validate_execute := fun s => Except.ok ({ call_id := 1 }, s)
      , validate_no_other_calls := fun _ => true
      , run_execute := fun s => Except.ok (some { call_id := 2 }, s)
      , get_fee_token_balance := fun _ _ => Except.ok (2000, 0)
      , calculate_tx_resources := fun _ => Except.ok (fun _ => 5)
      , calculate_tx_fee := fun _ => Except.ok 10
      , fee_transfer_execute := fun s _ => Except.ok ({ call_id := 3 }, s) }
      (AccountTransaction.invoke
        { transaction_hash := 1, max_fee := 1000, version := 1, signature := [],
          nonce := 5, sender_address := 9 })
      { nonces := fun _ => 5, storage := fun _ => 0 }).1).nonces 9 = 6 :=
  (nonce_check_and_increment_spec
    { max_steps := 100
    , validate_execute := fun s => Except.ok ({ call_id := 1 }, s)
    , validate_no_other_calls := fun _ => true
    , run_execute := fun s => Except.ok (some { call_id := 2 }, s)
    , get_fee_token_balance := fun _ _ => Except.ok (2000, 0)
    , calculate_tx_resources := fun _ => Except.ok (fun _ => 5)
    , calculate_tx_fee := fun _ => Except.ok 10
    , fee_transfer_execute := fun s _ => Except.ok ({ call_id := 3 }, s) }
    (AccountTransaction.invoke
      { transaction_hash := 1, max_fee := 1000, version := 1, signature := [],
        nonce := 5, sender_address := 9 })
    { nonces := fun _ => 5, storage := fun _ => 0 }
    { transaction_hash := 1, max_fee := 1000, version := 1, signature := [],
      nonce := 5, sender_address := 9 }
    rfl (by decide)
    (fun t ci t' h => by cases h; rfl)
    (fun t ci t' h => by cases h; rfl)
    (fun t fee ci t' h => by cases h; rfl)).2.2 rfl rfl

/-- The revert-error string is never empty: it always carries at least the
failure preamble. -/
theorem errorTrace_ne_empty (e : TxError) : errorTrace e ≠ "" := by
  unfold errorTrace
  intro h
  have hlen := congrArg String.length h
  rw [String.length_append] at hlen
  have h34 : ("Transaction execution has failed: " : String).length = 34 := rfl
  have h0 : ("" : String).length = 0 := rfl
  rw [h34, h0] at hlen
  omega

/-- Claim C2: a non-deploy-account transaction whose validate phase ran and
succeeded and whose execute phase fails yields an `Ok` result whose
revert-error is a non-empty string, with no execute trace, with the validate
trace present, whose `run_or_revert` output state is exactly the
post-validate state `s2` (the execute overlay is discarded), and whose
actual resources are the validate-phase resources with
`max_steps - remaining` folded into the step entry — a quantity that is
positive when execution burned steps (`remaining < max_steps`) and below
the full budget when the failure left budget over (`0 < remaining ≤
max_steps`). -/
theorem revert_path_execute_raw_spec (env : ExecEnv) (tx : AccountTransaction)
    (c : AccountTransactionContext) (s0 s1 s2 s3 : ChainState)
    (vinfo : CallInfo) (err : TxError) (remaining : Nat) (r : ResourcesMapping)
    (fee : Nat) (ftinfo : Option CallInfo)
    (hctx : c = tx.get_account_transaction_context)
    (hkind : tx.is_deploy_account = false)
    (hv : tx.verify_tx_version c.version = Except.ok ())
    (hn : handle_nonce_and_check_fee_balance env tx c s0 = (s1, Except.ok ()))
    (hval : validate_tx env c s1 = (s2, Except.ok (some vinfo)))
    (hexe : env.run_execute s2 = Except.error err)
    (hrem : err.remaining_resources = some remaining)
    (hres : env.calculate_tx_resources [vinfo] = Except.ok r)
    (hfee : charge_fee env c s2 (addSteps r (env.max_steps - remaining)) =
      (s3, Except.ok (fee, ftinfo))) :
    run_or_revert env tx c s1 =
      (s2, Except.ok
        { validate_call_info := some vinfo
        , execute_call_info := none
        , revert_data := some
            { revert_error := errorTrace err
            , remaining_resources := some remaining } }) ∧
    execute_raw env tx s0 =
      (s3, RawOutcome.ok
        { validate_call_info := some vinfo
        , execute_call_info := none
        , fee_transfer_call_info := ftinfo
        , actual_fee := fee
        , actual_resources := addSteps r (env.max_steps - remaining)
        , revert_error := some (errorTrace err) }) ∧
    errorTrace err ≠ "" ∧
    (remaining < env.max_steps → 0 < env.max_steps - remaining) ∧
    (0 < remaining → remaining ≤ env.max_steps →
      env.max_steps - remaining < env.max_steps) := by
  subst hctx
  have hror : run_or_revert env tx tx.get_account_transaction_context s1 =
      (s2, Except.ok
        { validate_call_info := some vinfo
        , execute_call_info := none
        , revert_data := some
            { revert_error := errorTrace err
            , remaining_resources := some remaining } }) := by
    simp only [run_or_revert, hkind, Bool.false_eq_true, if_false, hval, hexe, hrem]
  refine ⟨hror, ?_, errorTrace_ne_empty err, by omega, by omega⟩
  simp only [execute_raw, hv, hn, hror, account_revert_steps, Option.toList,
    List.nil_append, List.cons_append, hres, Option.isSome_none, Bool.false_eq_true,
    if_false, hfee, Option.map_some']

/-- A concrete environment whose execute phase fails out of steps with 60 of
100 steps remaining. -/
def revertEnv : ExecEnv :=
  { max_steps := 100
  , validate_execute := fun s => Except.ok ({ call_id := 1 }, s)
  , validate_no_other_calls := fun _ => true
  , run_execute := fun _ =>
      Except.error (TxError.executionFailed "out of steps" (some 60))
  , get_fee_token_balance := fun _ _ => Except.ok (2000, 0)
  , calculate_tx_resources := fun _ => Except.ok (fun _ => 5)
  , calculate_tx_fee := fun _ => Except.ok 10
  , fee_transfer_execute := fun s _ => Except.ok ({ call_id := 3 }, s) }

/-- A concrete version-1 invoke transaction. -/
def revertTx : AccountTransaction :=
  AccountTransaction.invoke
    { transaction_hash := 1, max_fee := 1000, version := 1, signature := [],
      nonce := 5, sender_address := 9 }

/-- The starting state for the revert witness. -/
def revertState0 : ChainState := { nonces := fun _ => 5, storage := fun _ => 0 }

/-- State after the nonce and balance checks of the revert witness. -/
def revertState1 : ChainState :=
  (handle_nonce_and_check_fee_balance revertEnv revertTx
    revertTx.get_account_transaction_context revertState0).1

/-- State after the validate phase of the revert witness. -/
def revertState2 : ChainState :=
  (validate_tx revertEnv revertTx.get_account_transaction_context revertState1).1

/-- Final state of the revert witness (after the fee transfer). -/
def revertState3 : ChainState :=
  (charge_fee revertEnv revertTx.get_account_transaction_context revertState2
    (addSteps (fun _ => 5) (100 - 60))).1

/-- Witness for claim C2: the concrete revert scenario produces an `Ok`
result with no execute trace, the validate trace, 40 consumed steps folded
into the step entry, and a non-empty revert error. -/
theorem revert_path_execute_raw_spec_witness :
    execute_raw revertEnv revertTx revertState0 =
      (revertState3, RawOutcome.ok
        { validate_call_info := some { call_id := 1 }
        , execute_call_info := none
        , fee_transfer_call_info := some { call_id := 3 }
        , actual_fee := 10
        , actual_resources := addSteps (fun _ => 5) (100 - 60)
        , revert_error := some (errorTrace
            (TxError.executionFailed "out of steps" (some 60))) }) ∧
    errorTrace (TxError.executionFailed "out of steps" (some 60)) ≠ "" ∧
    (0 : Nat) < 100 - 60 ∧ 100 - 60 < 100 :=
  let H := revert_path_execute_raw_spec revertEnv revertTx
    revertTx.get_account_transaction_context revertState0 revertState1
    revertState2 revertState3 { call_id := 1 }
    (TxError.executionFailed "out of steps" (some 60)) 60 (fun _ => 5) 10
    (some { call_id := 3 }) rfl rfl rfl rfl rfl rfl rfl rfl rfl
  ⟨H.2.1, H.2.2.1, H.2.2.2.1 (by decide), H.2.2.2.2 (by decide) (by decide)⟩

/-!
Part 3: marshalling of Python invoke transactions
(`src/crates/native_blockifier/src/py_invoke_function.rs`).

The Python payload is a dynamic object; `py_invoke_function` reads its
`version` attribute, converts it to `usize`, extracts the per-version field
set and converts each field.  Felts are modelled as naturals; the fallible
conversions of the `starknet_api` dependency are modelled concretely:
`ContractAddress::try_from` requires the felt to be below the Patricia-key
bound, `usize::try_from` requires it to fit 64 bits.  The infallible `From`
conversions (signatures, calldata, resource bounds, tips, data-availability
modes, paymaster and deployment data) are identities. -/

/-- The `starknet_api` Patricia-key upper bound on contract addresses. -/
def PATRICIA_KEY_UPPER_BOUND : Nat := 2 ^ 251 - 256

/-- Model of `NativeBlockifierInputError` (the variants reachable from
`py_invoke_function`). -/
inductive NativeBlockifierInputError where
  | unsupportedTransactionVersion (tx_type : TransactionType) (version : Nat)
  | invalidContractAddress
  | versionOutOfRange
deriving DecidableEq, Repr

/-- Model of `ContractAddress::try_from(StarkFelt)`. -/
def contract_address_try_from (felt : Nat) :
    Except NativeBlockifierInputError Nat :=
  if felt < PATRICIA_KEY_UPPER_BOUND then Except.ok felt
  else Except.error NativeBlockifierInputError.invalidContractAddress

/-- Model of `usize::try_from` on a felt attribute. -/
def usize_try_from (felt : Nat) : Except NativeBlockifierInputError Nat :=
  if felt < 2 ^ 64 then Except.ok felt
  else Except.error NativeBlockifierInputError.versionOutOfRange

/-- The Python transaction object, as the union of every attribute the three
extractors (`PyInvokeTransactionV0/V1/V3`) read. -/
structure PyInvokePayload where
  version : Nat
  max_fee : Nat
  signature : List Nat
  nonce : Nat
  contract_address : Nat
  entry_point_selector : Nat
  sender_address : Nat
  calldata : List Nat
  resource_bounds : Nat
  tip : Nat
  nonce_data_availability_mode : Nat
  fee_data_availability_mode : Nat
  paymaster_data : List Nat
  account_deployment_data : List Nat
  hash_value : Nat
deriving DecidableEq, Repr

/-- Model of `starknet_api::transaction::InvokeTransactionV0`. -/
structure InvokeTransactionV0 where
  max_fee : Nat
  signature : List Nat
  contract_address : Nat
  entry_point_selector : Nat
  calldata : List Nat
deriving DecidableEq, Repr

/-- Model of `starknet_api::transaction::InvokeTransactionV1`. -/
structure InvokeTransactionV1 where
  max_fee : Nat
  signature : List Nat
  nonce : Nat
  sender_address : Nat
  calldata : List Nat
deriving DecidableEq, Repr

/-- Model of `starknet_api::transaction::InvokeTransactionV3`. -/
structure InvokeTransactionV3 where
  resource_bounds : Nat
  tip : Nat
  signature : List Nat
  nonce : Nat
  sender_address : Nat
  calldata : List Nat
  nonce_data_availability_mode : Nat
  fee_data_availability_mode : Nat
  paymaster_data : List Nat
  account_deployment_data : List Nat
deriving DecidableEq, Repr

/-- Model of `starknet_api::transaction::InvokeTransaction`. -/
inductive ApiInvokeTransaction where
  | V0 (tx : InvokeTransactionV0)
  | V1 (tx : InvokeTransactionV1)
  | V3 (tx : InvokeTransactionV3)
deriving DecidableEq, Repr

/-- Model of `blockifier::transaction::transactions::InvokeTransaction`:
the api transaction plus its hash. -/
structure InvokeTransaction where
  tx : ApiInvokeTransaction
  tx_hash : Nat
deriving DecidableEq, Repr

/-- `TryFrom<PyInvokeTransactionV0> for InvokeTransactionV0`. -/
def invoke_v0_try_from (p : PyInvokePayload) :
    Except NativeBlockifierInputError InvokeTransactionV0 :=
  match contract_address_try_from p.contract_address with
  | Except.error e => Except.error e
  | Except.ok addr => Except.ok
      { max_fee := p.max_fee, signature := p.signature, contract_address := addr
      , entry_point_selector := p.entry_point_selector, calldata := p.calldata }

/-- `TryFrom<PyInvokeTransactionV1> for InvokeTransactionV1`. -/
def invoke_v1_try_from (p : PyInvokePayload) :
    Except NativeBlockifierInputError InvokeTransactionV1 :=
  match contract_address_try_from p.sender_address with
  | Except.error e => Except.error e
  | Except.ok addr => Except.ok
      { max_fee := p.max_fee, signature := p.signature, nonce := p.nonce
      , sender_address := addr, calldata := p.calldata }

/-- `TryFrom<PyInvokeTransactionV3> for InvokeTransactionV3`. -/
def invoke_v3_try_from (p : PyInvokePayload) :
    Except NativeBlockifierInputError InvokeTransactionV3 :=
  match contract_address_try_from p.sender_address with
  | Except.error e => Except.error e
  | Except.ok addr => Except.ok
      { resource_bounds := p.resource_bounds, tip := p.tip
      , signature := p.signature, nonce := p.nonce, sender_address := addr
      , calldata := p.calldata
      , nonce_data_availability_mode := p.nonce_data_availability_mode
      , fee_data_availability_mode := p.fee_data_availability_mode
      , paymaster_data := p.paymaster_data
      , account_deployment_data := p.account_deployment_data }

/-- Model of `py_invoke_function`: convert the version attribute to `usize`,
dispatch on 0 / 1 / 3 (any other value is
`UnsupportedTransactionVersion`), convert the per-version payload, and pair
the result with the hash attribute. -/
def py_invoke_function (p : PyInvokePayload) :
    Except NativeBlockifierInputError InvokeTransaction :=
  match usize_try_from p.version with
  | Except.error e => Except.error e
  | Except.ok version =>
    let tx_result : Except NativeBlockifierInputError ApiInvokeTransaction :=
      if version = 0 then
        match invoke_v0_try_from p with
        | Except.error e => Except.error e
        | Except.ok tx => Except.ok (ApiInvokeTransaction.V0 tx)
      else if version = 1 then
        match invoke_v1_try_from p with
        | Except.error e => Except.error e
        | Except.ok tx => Except.ok (ApiInvokeTransaction.V1 tx)
      else if version = 3 then
        match invoke_v3_try_from p with
        | Except.error e => Except.error e
        | Except.ok tx => Except.ok (ApiInvokeTransaction.V3 tx)
      else
        Except.error (NativeBlockifierInputError.unsupportedTransactionVersion
          TransactionType.invokeFunction version)
    match tx_result with
    | Except.error e => Except.error e
    | Except.ok tx => Except.ok { tx := tx, tx_hash := p.hash_value }

/-- Claim C10: `py_invoke_function` marshals successfully exactly the
payloads whose version is 0, 1 or 3 (and whose address field converts),
preserving every field and the hash unchanged; any other (convertible)
version yields `UnsupportedTransactionVersion`; and version 3, although
accepted by the marshaller, is outside the pipeline invoke allow-list
`[0, 1]` and is rejected there with `InvalidVersion`. -/
theorem py_invoke_function_spec (p : PyInvokePayload) :
    (p.version = 0 → p.contract_address < PATRICIA_KEY_UPPER_BOUND →
      py_invoke_function p = Except.ok
        { tx := ApiInvokeTransaction.V0
            { max_fee := p.max_fee, signature := p.signature
            , contract_address := p.contract_address
            , entry_point_selector := p.entry_point_selector
            , calldata := p.calldata }
        , tx_hash := p.hash_value }) ∧
    (p.version = 1 → p.sender_address < PATRICIA_KEY_UPPER_BOUND →
      py_invoke_function p = Except.ok
        { tx := ApiInvokeTransaction.V1
            { max_fee := p.max_fee, signature := p.signature, nonce := p.nonce
            , sender_address := p.sender_address, calldata := p.calldata }
        , tx_hash := p.hash_value }) ∧
    (p.version = 3 → p.sender_address < PATRICIA_KEY_UPPER_BOUND →
      py_invoke_function p = Except.ok
        { tx := ApiInvokeTransaction.V3
            { resource_bounds := p.resource_bounds, tip := p.tip
            , signature := p.signature, nonce := p.nonce
            , sender_address := p.sender_address, calldata := p.calldata
            , nonce_data_availability_mode := p.nonce_data_availability_mode
            , fee_data_availability_mode := p.fee_data_availability_mode
            , paymaster_data := p.paymaster_data
            , account_deployment_data := p.account_deployment_data }
        , tx_hash := p.hash_value }) ∧
    (p.version < 2 ^ 64 → p.version ≠ 0 → p.version ≠ 1 → p.version ≠ 3 →
      py_invoke_function p = Except.error
        (NativeBlockifierInputError.unsupportedTransactionVersion
          TransactionType.invokeFunction p.version)) ∧
    (∀ d : AccountTransactionContext,
      (AccountTransaction.invoke d).verify_tx_version 3 =
        Except.error (TxError.invalidVersion 3 [0, 1])) := by
  have hasz : ∀ v : Nat, v < 2 ^ 64 → usize_try_from v = Except.ok v := by
    intro v hv
    unfold usize_try_from
    rw [if_pos hv]
  have haddr : ∀ a : Nat, a < PATRICIA_KEY_UPPER_BOUND →
      contract_address_try_from a = Except.ok a := by
    intro a ha
    unfold contract_address_try_from
    rw [if_pos ha]
  refine ⟨?_, ?_, ?_, ?_, ?_⟩
  · intro h0 hca
    have hu : usize_try_from p.version = Except.ok 0 := by
      rw [h0]; exact hasz 0 (by norm_num)
    simp only [py_invoke_function, hu, invoke_v0_try_from, haddr _ hca]
    norm_num
  · intro h1 hsa
    have hu : usize_try_from p.version = Except.ok 1 := by
      rw [h1]; exact hasz 1 (by norm_num)
    simp only [py_invoke_function, hu, invoke_v1_try_from, haddr _ hsa]
    norm_num
  · intro h3 hsa
    have hu : usize_try_from p.version = Except.ok 3 := by
      rw [h3]; exact hasz 3 (by norm_num)
    simp only [py_invoke_function, hu, invoke_v3_try_from, haddr _ hsa]
    norm_num
  · intro hlt h0 h1 h3
    have hu : usize_try_from p.version = Except.ok p.version := hasz _ hlt
    simp only [py_invoke_function, hu, if_neg h0, if_neg h1, if_neg h3]
  · intro d
    rfl

/-- Witness for claim C10: a concrete version-3 payload marshals
successfully with all fields preserved, while the pipeline rejects version 3
for invoke transactions. -/
theorem py_invoke_function_spec_witness :
    py_invoke_function
      { version := 3, max_fee := 0, signature := [4, 5], nonce := 6
      , contract_address := 0, entry_point_selector := 0, sender_address := 9
      , calldata := [7], resource_bounds := 11, tip := 2
      , nonce_data_availability_mode := 0, fee_data_availability_mode := 0
      , paymaster_data := [], account_deployment_data := [], hash_value := 77 } =
      Except.ok
        { tx := ApiInvokeTransaction.V3
            { resource_bounds := 11, tip := 2, signature := [4, 5], nonce := 6
            , sender_address := 9, calldata := [7]
            , nonce_data_availability_mode := 0
            , fee_data_availability_mode := 0
            , paymaster_data := [], account_deployment_data := [] }
        , tx_hash := 77 } ∧
    (AccountTransaction.invoke
      { transaction_hash := 77, max_fee := 0, version := 3, signature := [4, 5],
        nonce := 6, sender_address := 9 }).verify_tx_version 3 =
      Except.error (TxError.invalidVersion 3 [0, 1]) :=
  ⟨(py_invoke_function_spec
      { version := 3, max_fee := 0, signature := [4, 5], nonce := 6
      , contract_address := 0, entry_point_selector := 0, sender_address := 9
      , calldata := [7], resource_bounds := 11, tip := 2
      , nonce_data_availability_mode := 0, fee_data_availability_mode := 0
      , paymaster_data := [], account_deployment_data := [],
        hash_value := 77 }).2.2.1 rfl (by norm_num [PATRICIA_KEY_UPPER_BOUND]),
   (py_invoke_function_spec
      { version := 3, max_fee := 0, signature := [4, 5], nonce := 6
      , contract_address := 0, entry_point_selector := 0, sender_address := 9
      , calldata := [7], resource_bounds := 11, tip := 2
      , nonce_data_availability_mode := 0, fee_data_availability_mode := 0
      , paymaster_data := [], account_deployment_data := [],
        hash_value := 77 }).2.2.2.2
     { transaction_hash := 77, max_fee := 0, version := 3, signature := [4, 5],
       nonce := 6, sender_address := 9 }⟩
